import Mathlib

/-!
Shallow embedding of the spotify-lambda repository.

Source files:
* `src/SpotifyTimeTakenUpdater.py` — the time-taken estimator
  (`calculate_time_taken_for_collection`), SNS notification (`send_sns`)
  and the entry point (`lambda_handler`).
* `src/spotify-lambda-fetcher.py` — the ingestor; only the
  duration-milliseconds formatting (lines 75-78) is needed by the claims.

Strings are modelled through their character lists.  Python's
`str.split(sep)` for a one-character separator is `splitOnChar`;
`int(...)` applied to a string is `pyInt?` (optional sign, then decimal
digits; Python's tolerance for surrounding whitespace and underscore
digit grouping is not modelled — no claim exercises it); `str(...)` of an
integer is `intRepr` / `natRepr` (decimal rendering); `str.zfill(2)` and
the `:02` format spec are `zfillChars`.

`datetime.strptime(s, "%Y-%m-%d %H:%M:%S")` followed by subtraction and
`.total_seconds()` is modelled by `strpSeconds`, which parses the fixed
format and linearises the proleptic Gregorian date (Python's
`date.toordinal`) to a count of seconds; only differences of the results
are used, exactly as in the source.  All timestamps in this format are
whole seconds, so the Python float subtraction is exact integer
arithmetic.  Python floor division `//` and modulo `%` with the positive
divisor 60 agree with `Int.ediv` / `Int.emod` (both yield a remainder in
`[0, 60)` and a floored quotient).
-/

/-- Numeric value of a decimal digit character (`'0'` ↦ 0, …, `'9'` ↦ 9). -/
def digitVal (c : Char) : Nat := c.toNat - 48

/-- The decimal digit character for `d < 10`. -/
def digitChr (d : Nat) : Char := Char.ofNat (48 + d)

/-- Value of a list of decimal digit characters, most significant first. -/
def parseDigits (l : List Char) : Nat :=
  l.foldl (fun n c => n * 10 + digitVal c) 0

/-- Python `int(s)` restricted to an unsigned all-digit string:
`some` of its value when `l` is nonempty and all digits, else `none`. -/
def pyNat? (l : List Char) : Option Nat :=
  if !l.isEmpty && l.all Char.isDigit then some (parseDigits l) else none

/-- Python `int(s)` on a (trimmed) string: an optional sign followed by
decimal digits. -/
def pyInt? (l : List Char) : Option Int :=
  match l with
  | [] => none
  | c :: rest =>
    if c = '-' then (pyNat? rest).map (fun n => -(n : Int))
    else if c = '+' then (pyNat? rest).map (fun n => (n : Int))
    else (pyNat? (c :: rest)).map (fun n => (n : Int))

/-- Fueled decimal rendering of a natural number (fuel bounds the digit
count; `natRepr` supplies enough). -/
def natReprAux : Nat → Nat → List Char
  | 0, _ => []
  | fuel + 1, n =>
    if n < 10 then [digitChr n]
    else natReprAux fuel (n / 10) ++ [digitChr (n % 10)]

/-- Python `str(n)` for a natural number: decimal digits, no sign. -/
def natRepr (n : Nat) : List Char := natReprAux (n + 1) n

/-- Python `str(a)` for an integer: a `'-'` sign when negative, then the
decimal digits of the absolute value. -/
def intRepr (a : Int) : List Char :=
  if a < 0 then '-' :: natRepr (-a).toNat else natRepr a.toNat

/-- Python `s.zfill(2)` (and the `:02` format spec) on a digit string:
left-pad with `'0'` to length 2. -/
def zfillChars (l : List Char) : List Char :=
  List.replicate (2 - l.length) '0' ++ l

/-- Python `s.split(sep)` for a single-character separator. -/
def splitOnChar (sep : Char) : List Char → List (List Char)
  | [] => [[]]
  | c :: rest =>
    if c = sep then [] :: splitOnChar sep rest
    else
      match splitOnChar sep rest with
      | [] => [[c]]
      | h :: t => (c :: h) :: t

/-- Gregorian leap-year test, as in Python's `calendar`/`datetime`. -/
def isLeapYear (y : Nat) : Bool :=
  y % 4 == 0 && (y % 100 != 0 || y % 400 == 0)

/-- Number of days in month `m` of year `y`. -/
def daysInMonth (y m : Nat) : Nat :=
  if m == 2 then (if isLeapYear y then 29 else 28)
  else if m == 4 || m == 6 || m == 9 || m == 11 then 30
  else 31

/-- Days in year `y` strictly before month `m`. -/
def daysBeforeMonth (y m : Nat) : Nat :=
  (List.range (m - 1)).foldl (fun acc k => acc + daysInMonth y (k + 1)) 0

/-- Python `date(y, m, d).toordinal()`: day number in the proleptic
Gregorian calendar, with 0001-01-01 as day 1. -/
def toOrdinal (y m d : Nat) : Nat :=
  (y - 1) * 365 + ((y - 1) / 4 - (y - 1) / 100) + (y - 1) / 400
    + daysBeforeMonth y m + d

/-- Model of `datetime.strptime(s, "%Y-%m-%d %H:%M:%S")`, linearised to
seconds (ordinal day times 86400 plus the time of day).  Mirrors strptime's
field widths (year up to 4 digits, the rest up to 2) and the `datetime`
range checks; `%S` matches that only 0–59 survives construction.
Subtracting two results equals the Python
`(t1 - t2).total_seconds()` of the parsed datetimes. -/
def strpSeconds (s : String) : Option Int :=
  match splitOnChar ' ' s.data with
  | [dateCs, timeCs] =>
    match splitOnChar '-' dateCs, splitOnChar ':' timeCs with
    | [ys, ms, ds], [hs, mins, ss] =>
      if ys.length ≤ 4 && ms.length ≤ 2 && ds.length ≤ 2
          && hs.length ≤ 2 && mins.length ≤ 2 && ss.length ≤ 2 then
        (match pyNat? ys, pyNat? ms, pyNat? ds,
              pyNat? hs, pyNat? mins, pyNat? ss with
        | some y, some mo, some d, some h, some mi, some sec =>
          if 1 ≤ y ∧ 1 ≤ mo ∧ mo ≤ 12 ∧ 1 ≤ d ∧ d ≤ daysInMonth y mo
              ∧ h ≤ 23 ∧ mi ≤ 59 ∧ sec ≤ 59 then
            some ((toOrdinal y mo d * 86400 + h * 3600 + mi * 60 + sec : Nat) : Int)
          else none
        | _, _, _, _, _, _ => none)
      else none
    | _, _ => none
  | _ => none

/-- Model of `minutes, seconds = duration.split(":")` followed by
`int(minutes) * 60 + int(seconds)` (SpotifyTimeTakenUpdater.py lines
88-89); `none` when the split does not yield exactly two parts or either
part is not an integer literal. -/
def parseDuration (s : String) : Option Int :=
  match splitOnChar ':' s.data with
  | [minutes, seconds] =>
    match pyInt? minutes, pyInt? seconds with
    | some m, some sec => some (m * 60 + sec)
    | _, _ => none
  | _ => none

/-- Model of the f-string at SpotifyTimeTakenUpdater.py line 92:
`int(actual // 60)`, a colon, then `str(int(actual % 60)).zfill(2)`.
`actual` is a whole number of seconds; Python's `//` and `%` by 60 are
`Int.ediv` / `Int.emod`. -/
def formatTimeTaken (actual : Int) : String :=
  String.mk (intRepr (Int.ediv actual 60)
    ++ ':' :: zfillChars (natRepr (Int.emod actual 60).toNat))

/-- A stored play-event document.  `time_taken := none` models the
absence of the key (`"time_taken" in song` is `time_taken.isSome`);
`other` stands for the remaining fields (artist, title, album, id),
which the estimator never touches. -/
structure Song where
  played_at : String
  duration : String
  time_taken : Option String
  other : String
deriving DecidableEq, Repr

/-- Run statistics returned by the estimator (the wall-clock `elapsed`
field is not modelled). -/
structure Stats where
  total_docs : Nat
  updated : Nat
  skipped : Nat
  errors : Nat
deriving DecidableEq, Repr

/-- Outcome of the loop body for one document. -/
inductive Outcome where
  | updated (song : Song) : Outcome
  | skipped : Outcome
  | errored : Outcome
deriving DecidableEq, Repr

/-- Loop body of `calculate_time_taken_for_collection` (lines 75-102)
for the document at index `i`, given `next? = data[i+1]?` (the snapshot
neighbour; `next? = none` exactly when `i = len(data) - 1`):
skip when `time_taken` is present; for a non-last document parse both
timestamps and the duration, take `min(diff, duration_total)` and format
it; for the last document copy `duration` verbatim.  Any parse failure
is the `except` branch (`errored`). -/
def processSong (song : Song) (next? : Option Song) : Outcome :=
  if song.time_taken.isSome then .skipped
  else
    match next? with
    | some nextSong =>
      match strpSeconds song.played_at, strpSeconds nextSong.played_at with
      | some cur, some nxt =>
        match parseDuration song.duration with
        | some durationTotal =>
          .updated { song with
            time_taken := some (formatTimeTaken (min (cur - nxt) durationTotal)) }
        | none => .errored
      | _, _ => .errored
    | none => .updated { song with time_taken := some song.duration }

/-- The scan of `calculate_time_taken_for_collection`: processes the
snapshot in order, applying each per-document `$set` update, and tallies
(updated, skipped, errors).  Each document is compared against its
snapshot neighbour `rest.head?`, exactly as the source reads
`data[i + 1]` from the list fetched once at the start. -/
def runAux : List Song → List Song × Nat × Nat × Nat
  | [] => ([], 0, 0, 0)
  | song :: rest =>
    let r := runAux rest
    match processSong song rest.head? with
    | .updated song' => (song' :: r.1, r.2.1 + 1, r.2.2.1, r.2.2.2)
    | .skipped => (song :: r.1, r.2.1, r.2.2.1 + 1, r.2.2.2)
    | .errored => (song :: r.1, r.2.1, r.2.2.1, r.2.2.2 + 1)

/-- The estimator `calculate_time_taken_for_collection` (lines 53-114):
the collection after the pass (documents in the same newest-first order)
together with the returned statistics.  The empty-collection early
return coincides with the general case, all counters zero. -/
def calculate_time_taken_for_collection (data : List Song) : List Song × Stats :=
  ((runAux data).1,
   { total_docs := data.length
     updated := (runAux data).2.1
     skipped := (runAux data).2.2.1
     errors := (runAux data).2.2.2 })

/-- Argument passed to `send_sns`: the completion path passes the summary
dict; the failure path passes a plain error string. -/
inductive SnsArg where
  | stats (s : Stats) : SnsArg
  | text (msg : String) : SnsArg
deriving DecidableEq, Repr

/-- Building the SNS message body (lines 27-35).  On a summary dict the
f-string succeeds; on a plain string, `summary['total_docs']` raises
`TypeError` (string indices must be integers) — this happens before the
`try`, so the exception escapes `send_sns`. -/
def buildSnsMessage : SnsArg → Except String String
  | .stats s =>
    .ok ("Spotify Time Taken Report\n\nStatus: time_taken calculation completed\n\n"
      ++ "Total Docs: " ++ String.mk (natRepr s.total_docs)
      ++ "\nUpdated: " ++ String.mk (natRepr s.updated)
      ++ "\nSkipped: " ++ String.mk (natRepr s.skipped)
      ++ "\nErrors: " ++ String.mk (natRepr s.errors) ++ "\n\n")
  | .text _ => .error ("TypeError: string indices must be integers")

/-- Notification sender `send_sns` (lines 20-45).  `topicArnSet` models whether
`SNS_TOPIC_ARN` is configured; `publishOk` models whether the
`sns_client.publish` network call succeeds.  A publish failure is caught
inside the function (`except` at line 44); a message-build failure is
not, and propagates as `.error`. -/
def send_sns (topicArnSet publishOk : Bool) (summary : SnsArg) : Except String Unit :=
  if !topicArnSet then .ok ()
  else
    match buildSnsMessage summary with
    | .error e => .error e
    | .ok _ => if publishOk then .ok () else .ok ()

/-- The `except` branch of `lambda_handler` (lines 144-148): build the
error message, call `send_sns` with that *string*, and re-raise the
original error; an exception from `send_sns` replaces it. -/
def handlerExceptBranch (topicArnSet publishOk : Bool) (e : String) :
    Except String (Nat × Stats) :=
  match send_sns topicArnSet publishOk (.text ("Updater failed: " ++ e)) with
  | .error e2 => .error e2
  | .ok _ => .error ("Updater failed: " ++ e)

/-- Entry point `lambda_handler` (lines 117-151) of
SpotifyTimeTakenUpdater.py.  `calcResult` abstracts the
`calculate_time_taken_for_collection` call, which can raise (storage
errors) — `.error` is the raised exception.  On success the summary
notification is sent and the 200 status with the summary is returned; an
exception anywhere in the `try` runs the `except` branch. -/
def lambda_handler (calcResult : Except String Stats) (topicArnSet publishOk : Bool) :
    Except String (Nat × Stats) :=
  match calcResult with
  | .ok summary =>
    match send_sns topicArnSet publishOk (.stats summary) with
    | .error e => handlerExceptBranch topicArnSet publishOk e
    | .ok _ => .ok (200, summary)
  | .error e => handlerExceptBranch topicArnSet publishOk e

/-- Duration formatting of the ingestor (spotify-lambda-fetcher.py lines
75-78): `minutes = duration_ms // 60000`,
`seconds = (duration_ms % 60000) // 1000`,
`f"{minutes:02}:{seconds:02}"`. -/
def format_duration_ms (duration_ms : Nat) : String :=
  String.mk (zfillChars (natRepr (duration_ms / 60000))
    ++ ':' :: zfillChars (natRepr (duration_ms % 60000 / 1000)))

/-- Effect of one loop-body outcome on the stored document: an update
replaces it, a skip or an error leaves it untouched. -/
def applyOutcome (song : Song) : Outcome → Song
  | .updated song' => song'
  | .skipped => song
  | .errored => song

/-! ### Decimal-string lemmas -/

theorem digitVal_digitChr {d : Nat} (h : d < 10) : digitVal (digitChr d) = d := by
  interval_cases d <;> rfl

theorem isDigit_digitChr {d : Nat} (h : d < 10) : (digitChr d).isDigit = true := by
  interval_cases d <;> rfl

theorem ne_colon_of_isDigit {c : Char} (h : c.isDigit = true) : c ≠ ':' := by
  intro hc
  subst hc
  exact absurd h (by decide)

theorem ne_dash_of_isDigit {c : Char} (h : c.isDigit = true) : c ≠ '-' := by
  intro hc
  subst hc
  exact absurd h (by decide)

theorem ne_plus_of_isDigit {c : Char} (h : c.isDigit = true) : c ≠ '+' := by
  intro hc
  subst hc
  exact absurd h (by decide)

theorem parseDigits_append (l : List Char) (c : Char) :
    parseDigits (l ++ [c]) = parseDigits l * 10 + digitVal c := by
  simp [parseDigits, List.foldl_append]

theorem parseDigits_replicate_zero (k : Nat) (l : List Char) :
    parseDigits (List.replicate k '0' ++ l) = parseDigits l := by
  induction k with
  | zero => simp
  | succ k ih =>
    rw [List.replicate_succ, List.cons_append]
    have h0 : parseDigits ('0' :: (List.replicate k '0' ++ l)) =
        List.foldl (fun n c => n * 10 + digitVal c) (0 * 10 + digitVal '0')
          (List.replicate k '0' ++ l) := rfl
    rw [h0]
    have h1 : 0 * 10 + digitVal '0' = 0 := by decide
    rw [h1]
    exact ih

theorem natReprAux_ne_nil (fuel n : Nat) (h : fuel ≠ 0) : natReprAux fuel n ≠ [] := by
  cases fuel with
  | zero => exact absurd rfl h
  | succ fuel =>
    rw [natReprAux]
    by_cases hn : n < 10
    · simp [hn]
    · simp [hn]

theorem natReprAux_all_digit (fuel n : Nat) :
    ∀ c ∈ natReprAux fuel n, c.isDigit = true := by
  induction fuel generalizing n with
  | zero => intro c hc; simp [natReprAux] at hc
  | succ fuel ih =>
    intro c hc
    rw [natReprAux] at hc
    by_cases hn : n < 10
    · rw [if_pos hn] at hc
      rw [List.mem_singleton] at hc
      subst hc
      exact isDigit_digitChr hn
    · rw [if_neg hn] at hc
      rcases List.mem_append.mp hc with h1 | h2
      · exact ih (n / 10) c h1
      · rw [List.mem_singleton] at h2
        subst h2
        exact isDigit_digitChr (Nat.mod_lt n (by norm_num))

theorem parseDigits_natReprAux (fuel n : Nat) (h : n < 10 ^ fuel) :
    parseDigits (natReprAux fuel n) = n := by
  induction fuel generalizing n with
  | zero =>
    simp only [pow_zero, Nat.lt_one_iff] at h
    subst h
    rfl
  | succ fuel ih =>
    rw [natReprAux]
    by_cases hn : n < 10
    · rw [if_pos hn]
      show 0 * 10 + digitVal (digitChr n) = n
      rw [digitVal_digitChr hn]
      omega
    · rw [if_neg hn]
      rw [parseDigits_append]
      have hdiv : n / 10 < 10 ^ fuel := by
        have h' : n < 10 ^ fuel * 10 := by rw [← pow_succ]; exact h
        omega
      rw [ih (n / 10) hdiv]
      rw [digitVal_digitChr (Nat.mod_lt n (by norm_num))]
      omega

theorem natRepr_ne_nil (n : Nat) : natRepr n ≠ [] :=
  natReprAux_ne_nil (n + 1) n (Nat.succ_ne_zero n)

theorem natRepr_all_digit (n : Nat) : ∀ c ∈ natRepr n, c.isDigit = true :=
  natReprAux_all_digit (n + 1) n

theorem parseDigits_natRepr (n : Nat) : parseDigits (natRepr n) = n := by
  apply parseDigits_natReprAux
  calc n < 10 ^ n := Nat.lt_pow_self (by norm_num) n
    _ ≤ 10 ^ (n + 1) := Nat.pow_le_pow_right (by norm_num) (Nat.le_succ n)

theorem pyNat?_of_digits {l : List Char} (h1 : l ≠ [])
    (h2 : ∀ c ∈ l, c.isDigit = true) : pyNat? l = some (parseDigits l) := by
  cases l with
  | nil => exact absurd rfl h1
  | cons c cs =>
    rw [pyNat?, if_pos]
    rw [Bool.and_eq_true]
    exact ⟨rfl, List.all_eq_true.mpr h2⟩

theorem pyInt?_of_digits {l : List Char} (h1 : l ≠ [])
    (h2 : ∀ c ∈ l, c.isDigit = true) :
    pyInt? l = some ((parseDigits l : Nat) : Int) := by
  cases l with
  | nil => exact absurd rfl h1
  | cons c cs =>
    have hc : c.isDigit = true := h2 c (List.mem_cons_self c cs)
    rw [pyInt?]
    rw [if_neg (ne_dash_of_isDigit hc), if_neg (ne_plus_of_isDigit hc)]
    rw [pyNat?_of_digits (List.cons_ne_nil c cs) h2]
    rfl

theorem pyInt?_intRepr (a : Int) : pyInt? (intRepr a) = some a := by
  rw [intRepr]
  by_cases ha : a < 0
  · rw [if_pos ha, pyInt?, if_pos rfl]
    rw [pyNat?_of_digits (natRepr_ne_nil _) (natRepr_all_digit _)]
    simp [parseDigits_natRepr]
    omega
  · rw [if_neg ha]
    rw [pyInt?_of_digits (natRepr_ne_nil _) (natRepr_all_digit _)]
    rw [parseDigits_natRepr]
    congr 1
    omega

theorem zfillChars_all_digit {l : List Char} (h : ∀ c ∈ l, c.isDigit = true) :
    ∀ c ∈ zfillChars l, c.isDigit = true := by
  intro c hc
  rw [zfillChars] at hc
  rcases List.mem_append.mp hc with h0 | h1
  · rw [List.eq_of_mem_replicate h0]
    decide
  · exact h c h1

theorem zfillChars_ne_nil {l : List Char} (h : l ≠ []) : zfillChars l ≠ [] := by
  rw [zfillChars]
  intro he
  exact h (List.append_eq_nil.mp he).2

theorem pyInt?_zfill_natRepr (n : Nat) :
    pyInt? (zfillChars (natRepr n)) = some (n : Int) := by
  rw [pyInt?_of_digits (zfillChars_ne_nil (natRepr_ne_nil n))
    (zfillChars_all_digit (natRepr_all_digit n))]
  rw [zfillChars, parseDigits_replicate_zero, parseDigits_natRepr]

/-! ### Split lemmas -/

theorem splitOnChar_of_not_mem {sep : Char} {l : List Char}
    (h : ∀ c ∈ l, c ≠ sep) : splitOnChar sep l = [l] := by
  induction l with
  | nil => rfl
  | cons c rest ih =>
    rw [splitOnChar, if_neg (h c (List.mem_cons_self c rest))]
    rw [ih (fun x hx => h x (List.mem_cons_of_mem c hx))]

theorem splitOnChar_append {sep : Char} {a : List Char} (b : List Char)
    (h : ∀ c ∈ a, c ≠ sep) :
    splitOnChar sep (a ++ sep :: b) = a :: splitOnChar sep b := by
  induction a with
  | nil => rw [List.nil_append, splitOnChar, if_pos rfl]
  | cons c a' ih =>
    rw [List.cons_append, splitOnChar, if_neg (h c (List.mem_cons_self c a'))]
    rw [ih (fun x hx => h x (List.mem_cons_of_mem c hx))]

theorem splitOnChar_pair {sep : Char} {a b : List Char}
    (ha : ∀ c ∈ a, c ≠ sep) (hb : ∀ c ∈ b, c ≠ sep) :
    splitOnChar sep (a ++ sep :: b) = [a, b] := by
  rw [splitOnChar_append b ha, splitOnChar_of_not_mem hb]

/-! ### Round-trip of the minutes-seconds text encoding -/

theorem intRepr_ne_colon (a : Int) : ∀ c ∈ intRepr a, c ≠ ':' := by
  intro c hc
  rw [intRepr] at hc
  by_cases ha : a < 0
  · rw [if_pos ha] at hc
    rcases List.mem_cons.mp hc with h1 | h2
    · subst h1; decide
    · exact ne_colon_of_isDigit (natRepr_all_digit _ c h2)
  · rw [if_neg ha] at hc
    exact ne_colon_of_isDigit (natRepr_all_digit _ c hc)

theorem zfill_natRepr_ne_colon (n : Nat) :
    ∀ c ∈ zfillChars (natRepr n), c ≠ ':' := fun c hc =>
  ne_colon_of_isDigit (zfillChars_all_digit (natRepr_all_digit n) c hc)

theorem parseDuration_formatTimeTaken (a : Int) :
    parseDuration (formatTimeTaken a) = some a := by
  rw [formatTimeTaken, parseDuration]
  show (match splitOnChar ':' (intRepr (Int.ediv a 60)
      ++ ':' :: zfillChars (natRepr (Int.emod a 60).toNat)) with
    | [minutes, seconds] =>
      match pyInt? minutes, pyInt? seconds with
      | some m, some sec => some (m * 60 + sec)
      | _, _ => none
    | _ => none) = some a
  rw [splitOnChar_pair (intRepr_ne_colon _) (zfill_natRepr_ne_colon _)]
  show (match pyInt? (intRepr (Int.ediv a 60)),
      pyInt? (zfillChars (natRepr (Int.emod a 60).toNat)) with
    | some m, some sec => some (m * 60 + sec)
    | _, _ => none) = some a
  rw [pyInt?_intRepr, pyInt?_zfill_natRepr]
  show some (Int.ediv a 60 * 60 + ((Int.emod a 60).toNat : Int)) = some a
  congr 1
  have hnn : 0 ≤ Int.emod a 60 := Int.emod_nonneg a (by norm_num)
  rw [Int.toNat_of_nonneg hnn]
  have hdm : 60 * Int.ediv a 60 + Int.emod a 60 = a := Int.ediv_add_emod a 60
  omega

theorem parseDuration_format_duration_ms (duration_ms : Nat) :
    parseDuration (format_duration_ms duration_ms) =
      some ((duration_ms / 60000 * 60 + duration_ms % 60000 / 1000 : Nat) : Int) := by
  rw [format_duration_ms, parseDuration]
  show (match splitOnChar ':' (zfillChars (natRepr (duration_ms / 60000))
      ++ ':' :: zfillChars (natRepr (duration_ms % 60000 / 1000))) with
    | [minutes, seconds] =>
      match pyInt? minutes, pyInt? seconds with
      | some m, some sec => some (m * 60 + sec)
      | _, _ => none
    | _ => none) = _
  rw [splitOnChar_pair (zfill_natRepr_ne_colon _) (zfill_natRepr_ne_colon _)]
  show (match pyInt? (zfillChars (natRepr (duration_ms / 60000))),
      pyInt? (zfillChars (natRepr (duration_ms % 60000 / 1000))) with
    | some m, some sec => some (m * 60 + sec)
    | _, _ => none) = _
  rw [pyInt?_zfill_natRepr, pyInt?_zfill_natRepr]
  show some (((duration_ms / 60000 : Nat) : Int) * 60
      + ((duration_ms % 60000 / 1000 : Nat) : Int)) = _
  congr 1
  try push_cast
  try ring

/-! ### Estimator-run lemmas -/

theorem processSong_skipped_of_isSome {song : Song} (next? : Option Song)
    (h : song.time_taken.isSome = true) : processSong song next? = .skipped := by
  rw [processSong.eq_def, if_pos h]

theorem processSong_ne_skipped {song : Song} (next? : Option Song)
    (h : song.time_taken = none) : processSong song next? ≠ .skipped := by
  cases next? with
  | none => simp [processSong, h]
  | some nextSong =>
    cases h1 : strpSeconds song.played_at with
    | none => simp [processSong, h, h1]
    | some cur =>
      cases h2 : strpSeconds nextSong.played_at with
      | none => simp [processSong, h, h1, h2]
      | some nxt =>
        cases hd : parseDuration song.duration with
        | none => simp [processSong, h, h1, h2, hd]
        | some dur => simp [processSong, h, h1, h2, hd]

theorem isSome_of_processSong_skipped {song : Song} {next? : Option Song}
    (h : processSong song next? = .skipped) : song.time_taken.isSome = true := by
  by_contra hc
  have hn : song.time_taken = none := by
    cases hs : song.time_taken with
    | none => rfl
    | some x => rw [hs] at hc; exact absurd rfl hc
  exact processSong_ne_skipped next? hn h

theorem processSong_updated_isSome {song s' : Song} {next? : Option Song}
    (hp : processSong song next? = .updated s') : s'.time_taken.isSome = true := by
  by_cases hs : song.time_taken.isSome = true
  · rw [processSong_skipped_of_isSome next? hs] at hp
    exact absurd hp (by simp)
  · have hn : song.time_taken = none := by
      cases hx : song.time_taken with
      | none => rfl
      | some x => rw [hx] at hs; exact absurd rfl hs
    cases next? with
    | none =>
      have he : processSong song none =
          .updated { song with time_taken := some song.duration } := by
        simp [processSong, hn]
      rw [he] at hp
      injection hp with h'
      rw [← h']
      rfl
    | some nextSong =>
      cases h1 : strpSeconds song.played_at with
      | none =>
        have he : processSong song (some nextSong) = .errored := by
          simp [processSong, hn, h1]
        rw [he] at hp
        exact absurd hp (by simp)
      | some cur =>
        cases h2 : strpSeconds nextSong.played_at with
        | none =>
          have he : processSong song (some nextSong) = .errored := by
            simp [processSong, hn, h1, h2]
          rw [he] at hp
          exact absurd hp (by simp)
        | some nxt =>
          cases hd : parseDuration song.duration with
          | none =>
            have he : processSong song (some nextSong) = .errored := by
              simp [processSong, hn, h1, h2, hd]
            rw [he] at hp
            exact absurd hp (by simp)
          | some dur =>
            have he : processSong song (some nextSong) =
                .updated { song with
                  time_taken := some (formatTimeTaken (min (cur - nxt) dur)) } := by
              simp [processSong, hn, h1, h2, hd]
            rw [he] at hp
            injection hp with h'
            rw [← h']
            rfl

theorem runAux_length (data : List Song) : (runAux data).1.length = data.length := by
  induction data with
  | nil => rfl
  | cons song rest ih =>
    cases ho : processSong song rest.head? <;> simp [runAux, ho, ih]

theorem runAux_getElem? (data : List Song) (i : Nat) :
    (runAux data).1[i]? =
      (data[i]?).map (fun song => applyOutcome song (processSong song data[i + 1]?)) := by
  induction data generalizing i with
  | nil => simp [runAux]
  | cons song rest ih =>
    have hhead : (song :: rest)[1]? = rest.head? := by
      cases rest <;> simp
    cases i with
    | zero =>
      rw [hhead]
      cases ho : processSong song rest.head? <;>
        simp [runAux, ho, applyOutcome]
    | succ i =>
      have h1 : (song :: rest)[i + 1]? = rest[i]? := by
        simp
      have h2 : (song :: rest)[i + 1 + 1]? = rest[i + 1]? := by
        simp
      rw [h1, h2]
      cases ho : processSong song rest.head? <;>
        simpa [runAux, ho] using ih i

theorem runAux_counts (data : List Song) :
    (runAux data).2.1 + (runAux data).2.2.1 + (runAux data).2.2.2 = data.length := by
  induction data with
  | nil => rfl
  | cons song rest ih =>
    cases ho : processSong song rest.head? <;>
      (simp [runAux, ho]; omega)

theorem runAux_skipped (data : List Song) :
    (runAux data).2.2.1 = (data.filter (fun s => s.time_taken.isSome)).length := by
  induction data with
  | nil => rfl
  | cons song rest ih =>
    cases h : song.time_taken.isSome with
    | true =>
      have hsk := processSong_skipped_of_isSome rest.head? h
      simp [runAux, hsk, h, ih, List.filter_cons]
    | false =>
      have hn : song.time_taken = none := by
        cases hs : song.time_taken with
        | none => rfl
        | some x => rw [hs] at h; simp at h
      have hne := processSong_ne_skipped rest.head? hn
      cases ho : processSong song rest.head? with
      | updated s' => simp [runAux, ho, h, ih, List.filter_cons]
      | skipped => exact absurd ho hne
      | errored => simp [runAux, ho, h, ih, List.filter_cons]

theorem runAux_errors_zero_isSome {data : List Song}
    (h : (runAux data).2.2.2 = 0) :
    ∀ s' ∈ (runAux data).1, s'.time_taken.isSome = true := by
  induction data with
  | nil => intro s' hs; simp [runAux] at hs
  | cons song rest ih =>
    intro s' hs
    cases ho : processSong song rest.head? with
    | updated s'' =>
      rw [runAux] at h hs
      simp only [ho] at h hs
      rcases List.mem_cons.mp hs with rfl | hs'
      · exact processSong_updated_isSome ho
      · exact ih h s' hs'
    | skipped =>
      rw [runAux] at h hs
      simp only [ho] at h hs
      rcases List.mem_cons.mp hs with rfl | hs'
      · exact isSome_of_processSong_skipped ho
      · exact ih h s' hs'
    | errored =>
      rw [runAux] at h
      simp only [ho] at h
      exact absurd h (by simp)

theorem runAux_all_isSome {data : List Song}
    (h : ∀ s ∈ data, s.time_taken.isSome = true) :
    runAux data = (data, 0, data.length, 0) := by
  induction data with
  | nil => rfl
  | cons song rest ih =>
    have h1 := processSong_skipped_of_isSome rest.head?
      (h song (List.mem_cons_self song rest))
    have h2 := ih (fun s hs => h s (List.mem_cons_of_mem song hs))
    simp [runAux, h1, h2]

theorem runAux_errors_pos {data : List Song} {i : Nat} {song : Song}
    (hi : data[i]? = some song)
    (hf : processSong song data[i + 1]? = .errored) :
    1 ≤ (runAux data).2.2.2 := by
  induction data generalizing i with
  | nil => simp at hi
  | cons s rest ih =>
    cases i with
    | zero =>
      have hs : s = song := by simpa using hi
      subst hs
      have hhead : (s :: rest)[1]? = rest.head? := by
        cases rest <;> simp
      rw [hhead] at hf
      simp [runAux, hf]
    | succ i =>
      have h1 : rest[i]? = some song := by simpa using hi
      have h2 : processSong song rest[i + 1]? = .errored := by
        simpa using hf
      have := ih h1 h2
      cases ho : processSong s rest.head? <;> simp [runAux, ho] <;> omega

/-! ### Claim theorems -/

/-- C1: for every event at index `i` of the newest-first input that lacks
`time_taken` and is not the oldest, the estimator stores
`min(gap_seconds, duration_seconds)` rendered as minutes-seconds text,
where the gap is `played_at[i] - played_at[i+1]` in seconds and the
duration is `minutes*60 + seconds` parsed from the event's duration
text. -/
theorem c1_time_taken_is_min_gap_duration (data : List Song) (i : Nat)
    (song next : Song) (cur nxt dur : Int)
    (hi : data[i]? = some song) (hnext : data[i + 1]? = some next)
    (htt : song.time_taken = none)
    (hcur : strpSeconds song.played_at = some cur)
    (hnxt : strpSeconds next.played_at = some nxt)
    (hdur : parseDuration song.duration = some dur) :
    (calculate_time_taken_for_collection data).1[i]? =
      some { song with time_taken := some (formatTimeTaken (min (cur - nxt) dur)) } := by
  show (runAux data).1[i]? = _
  rw [runAux_getElem?, hi]
  simp only [Option.map_some']
  rw [hnext]
  have he : processSong song (some next) =
      .updated { song with time_taken := some (formatTimeTaken (min (cur - nxt) dur)) } := by
    simp [processSong, htt, hcur, hnxt, hdur]
  rw [he]
  rfl

/-- Witness for C1, the spec's example with an explicit date: gap 180 s,
duration 210 s, estimate min(180, 210) = 180 → time_taken "3:00". -/
theorem c1_witness :
    (calculate_time_taken_for_collection
      [{ played_at := "0001-01-01 10:05:00", duration := "3:30",
         time_taken := none, other := "w1" },
       { played_at := "0001-01-01 10:02:00", duration := "4:00",
         time_taken := none, other := "w2" }]).1[0]? =
      some { played_at := "0001-01-01 10:05:00", duration := "3:30",
             time_taken := some ("3:00"), other := "w1" } := by
  have h := c1_time_taken_is_min_gap_duration
    [{ played_at := "0001-01-01 10:05:00", duration := "3:30",
       time_taken := none, other := "w1" },
     { played_at := "0001-01-01 10:02:00", duration := "4:00",
       time_taken := none, other := "w2" }]
    0
    { played_at := "0001-01-01 10:05:00", duration := "3:30",
      time_taken := none, other := "w1" }
    { played_at := "0001-01-01 10:02:00", duration := "4:00",
      time_taken := none, other := "w2" }
    122700 122520 210
    (by decide) (by decide) rfl (by decide) (by decide) (by decide)
  rw [h]
  decide

/-- C2: for every non-empty input the last (oldest) event, when it lacks
`time_taken`, receives its duration string verbatim. -/
theorem c2_oldest_gets_duration_verbatim (data : List Song) (song : Song)
    (hi : data[data.length - 1]? = some song) (htt : song.time_taken = none) :
    (calculate_time_taken_for_collection data).1[data.length - 1]? =
      some { song with time_taken := some song.duration } := by
  have hne : data.length ≠ 0 := by
    intro h0
    rw [List.length_eq_zero] at h0
    subst h0
    simp at hi
  have hnone : data[data.length - 1 + 1]? = none := by
    apply List.getElem?_eq_none
    omega
  show (runAux data).1[data.length - 1]? = _
  rw [runAux_getElem?, hi]
  simp only [Option.map_some']
  rw [hnone]
  have he : processSong song none =
      .updated { song with time_taken := some song.duration } := by
    simp [processSong, htt]
  rw [he]
  rfl

/-- Witness for C2: a single (hence oldest) event with duration "2:45"
and no time_taken gets time_taken "2:45" verbatim. -/
theorem c2_witness :
    (calculate_time_taken_for_collection
      [{ played_at := "0001-01-02 09:00:00", duration := "2:45",
         time_taken := none, other := "w3" }]).1[0]? =
      some { played_at := "0001-01-02 09:00:00", duration := "2:45",
             time_taken := some ("2:45"), other := "w3" } :=
  c2_oldest_gets_duration_verbatim
    [{ played_at := "0001-01-02 09:00:00", duration := "2:45",
       time_taken := none, other := "w3" }]
    { played_at := "0001-01-02 09:00:00", duration := "2:45",
      time_taken := none, other := "w3" }
    (by decide) rfl

/-- C3: for every non-oldest event whose `played_at` is earlier than the
next-older event's (negative gap), the estimator does not clamp: it
stores the formatted `min(gap_seconds, duration_seconds)`, which is
negative. -/
theorem c3_negative_gap_not_clamped (data : List Song) (i : Nat)
    (song next : Song) (cur nxt dur : Int)
    (hi : data[i]? = some song) (hnext : data[i + 1]? = some next)
    (htt : song.time_taken = none)
    (hcur : strpSeconds song.played_at = some cur)
    (hnxt : strpSeconds next.played_at = some nxt)
    (hdur : parseDuration song.duration = some dur)
    (hneg : cur < nxt) :
    (calculate_time_taken_for_collection data).1[i]? =
      some { song with time_taken := some (formatTimeTaken (min (cur - nxt) dur)) }
    ∧ min (cur - nxt) dur < 0 := by
  constructor
  · show (runAux data).1[i]? = _
    rw [runAux_getElem?, hi]
    simp only [Option.map_some']
    rw [hnext]
    have he : processSong song (some next) =
        .updated { song with time_taken := some (formatTimeTaken (min (cur - nxt) dur)) } := by
      simp [processSong, htt, hcur, hnxt, hdur]
    rw [he]
    rfl
  · exact lt_of_le_of_lt (min_le_left _ _) (by omega)

/-- Witness for C3: out-of-order timestamps give gap −120 s against
duration 240 s; min(−120, 240) = −120 is stored as "-2:00". -/
theorem c3_witness :
    (calculate_time_taken_for_collection
      [{ played_at := "0001-01-01 10:00:00", duration := "4:00",
         time_taken := none, other := "w4" },
       { played_at := "0001-01-01 10:02:00", duration := "3:00",
         time_taken := none, other := "w5" }]).1[0]? =
      some { played_at := "0001-01-01 10:00:00", duration := "4:00",
             time_taken := some ("-2:00"), other := "w4" }
    ∧ min ((122400 : Int) - 122520) 240 < 0 := by
  have h := c3_negative_gap_not_clamped
    [{ played_at := "0001-01-01 10:00:00", duration := "4:00",
       time_taken := none, other := "w4" },
     { played_at := "0001-01-01 10:02:00", duration := "3:00",
       time_taken := none, other := "w5" }]
    0
    { played_at := "0001-01-01 10:00:00", duration := "4:00",
      time_taken := none, other := "w4" }
    { played_at := "0001-01-01 10:02:00", duration := "3:00",
      time_taken := none, other := "w5" }
    122400 122520 240
    (by decide) (by decide) rfl (by decide) (by decide) (by decide) (by decide)
  refine ⟨?_, h.2⟩
  rw [h.1]
  decide

/-- C4: every event that already has `time_taken` before a run is counted
as skipped, and the whole document (every field) is unchanged after the
run. -/
theorem c4_preset_time_taken_immutable (data : List Song) :
    (∀ (i : Nat) (song : Song), data[i]? = some song →
      song.time_taken.isSome = true →
      (calculate_time_taken_for_collection data).1[i]? = some song)
    ∧ (calculate_time_taken_for_collection data).2.skipped =
        (data.filter (fun s => s.time_taken.isSome)).length := by
  constructor
  · intro i song hi hs
    show (runAux data).1[i]? = _
    rw [runAux_getElem?, hi]
    simp only [Option.map_some']
    rw [processSong_skipped_of_isSome _ hs]
    rfl
  · exact runAux_skipped data

/-- Witness for C4: an event with pre-set time_taken "1:23" is returned
unchanged and the run counts exactly one skip. -/
theorem c4_witness :
    (calculate_time_taken_for_collection
      [{ played_at := "0001-01-03 08:00:00", duration := "3:10",
         time_taken := some ("1:23"), other := "w6" },
       { played_at := "0001-01-03 07:00:00", duration := "2:00",
         time_taken := none, other := "w7" }]).1[0]? =
      some { played_at := "0001-01-03 08:00:00", duration := "3:10",
             time_taken := some ("1:23"), other := "w6" }
    ∧ (calculate_time_taken_for_collection
      [{ played_at := "0001-01-03 08:00:00", duration := "3:10",
         time_taken := some ("1:23"), other := "w6" },
       { played_at := "0001-01-03 07:00:00", duration := "2:00",
         time_taken := none, other := "w7" }]).2.skipped = 1 :=
  ⟨(c4_preset_time_taken_immutable _).1 0 _ (by decide) (by decide),
   (c4_preset_time_taken_immutable _).2.trans (by decide)⟩

/-- C5 counterexample: with a malformed duration "abc" on the newest of
two events, the first run errors on it (leaving it without time_taken),
so the second run retries and errors again — its `skipped` (1) is not
`total_docs` (2), refuting the claim as stated. -/
theorem c5_counterexample :
    (calculate_time_taken_for_collection
      (calculate_time_taken_for_collection
        [{ played_at := "0001-01-05 10:05:00", duration := "abc",
           time_taken := none, other := "x1" },
         { played_at := "0001-01-05 10:02:00", duration := "4:00",
           time_taken := none, other := "x2" }]).1).2.skipped ≠
    (calculate_time_taken_for_collection
      (calculate_time_taken_for_collection
        [{ played_at := "0001-01-05 10:05:00", duration := "abc",
           time_taken := none, other := "x1" },
         { played_at := "0001-01-05 10:02:00", duration := "4:00",
           time_taken := none, other := "x2" }]).1).2.total_docs := by decide

/-- C5 (amended): when the first run reports zero errors, a second run on
its output leaves the data identical and returns statistics with
updated = 0 and skipped = total_docs (and zero errors). -/
theorem c5_second_run_identity (data : List Song)
    (h : (calculate_time_taken_for_collection data).2.errors = 0) :
    calculate_time_taken_for_collection
        (calculate_time_taken_for_collection data).1 =
      ((calculate_time_taken_for_collection data).1,
       { total_docs := data.length, updated := 0,
         skipped := data.length, errors := 0 }) := by
  have h0 : (runAux data).2.2.2 = 0 := h
  have hall : ∀ s' ∈ (runAux data).1, s'.time_taken.isSome = true :=
    runAux_errors_zero_isSome h0
  have hrun := runAux_all_isSome hall
  have hlen := runAux_length data
  show ((runAux (runAux data).1).1,
    ({ total_docs := (runAux data).1.length
       updated := (runAux (runAux data).1).2.1
       skipped := (runAux (runAux data).1).2.2.1
       errors := (runAux (runAux data).1).2.2.2 } : Stats)) = _
  rw [hrun]
  simp [hlen]
  rfl

/-- Witness for C5 (amended): after an error-free first run on two good
events, the second run changes nothing and reports 2 docs, 0 updated,
2 skipped, 0 errors. -/
theorem c5_witness :
    calculate_time_taken_for_collection
        (calculate_time_taken_for_collection
          [{ played_at := "0001-01-05 11:05:00", duration := "3:30",
             time_taken := none, other := "x3" },
           { played_at := "0001-01-05 11:02:00", duration := "4:00",
             time_taken := none, other := "x4" }]).1 =
      ((calculate_time_taken_for_collection
          [{ played_at := "0001-01-05 11:05:00", duration := "3:30",
             time_taken := none, other := "x3" },
           { played_at := "0001-01-05 11:02:00", duration := "4:00",
             time_taken := none, other := "x4" }]).1,
       { total_docs := 2, updated := 0, skipped := 2, errors := 0 }) :=
  c5_second_run_identity
    [{ played_at := "0001-01-05 11:05:00", duration := "3:30",
       time_taken := none, other := "x3" },
     { played_at := "0001-01-05 11:02:00", duration := "4:00",
       time_taken := none, other := "x4" }]
    (by decide)

/-- C6 counterexample: the malformed duration "abc" placed on the oldest
of five events is copied verbatim without parsing, so the run reports
errors = 0 and updated = 5, not errors = 1 and updated = 4. -/
theorem c6_counterexample :
    (calculate_time_taken_for_collection
      [{ played_at := "0001-01-06 12:10:00", duration := "3:00",
         time_taken := none, other := "y1" },
       { played_at := "0001-01-06 12:05:00", duration := "2:00",
         time_taken := none, other := "y2" },
       { played_at := "0001-01-06 12:00:00", duration := "2:30",
         time_taken := none, other := "y3" },
       { played_at := "0001-01-06 11:55:00", duration := "4:00",
         time_taken := none, other := "y4" },
       { played_at := "0001-01-06 11:50:00", duration := "abc",
         time_taken := none, other := "y5" }]).2 =
      { total_docs := 5, updated := 5, skipped := 0, errors := 0 } := by decide

/-- C6 (amended): a failure while processing a single event increments
the error counter and processing continues — the pass still covers every
document, the failing event is left unchanged, and every other event
whose own processing succeeds with an update is still updated.  The
example requires the malformed event to be non-oldest. -/
theorem c6_per_event_failure_isolated (data : List Song) (i : Nat) (song : Song)
    (hi : data[i]? = some song)
    (hfail : processSong song data[i + 1]? = .errored) :
    1 ≤ (calculate_time_taken_for_collection data).2.errors
    ∧ (calculate_time_taken_for_collection data).1.length = data.length
    ∧ (calculate_time_taken_for_collection data).1[i]? = some song
    ∧ ∀ (j : Nat) (song' upd : Song), data[j]? = some song' →
        processSong song' data[j + 1]? = .updated upd →
        (calculate_time_taken_for_collection data).1[j]? = some upd := by
  refine ⟨runAux_errors_pos hi hfail, runAux_length data, ?_, ?_⟩
  · show (runAux data).1[i]? = _
    rw [runAux_getElem?, hi]
    simp only [Option.map_some']
    rw [hfail]
    rfl
  · intro j song' upd hj hupd
    show (runAux data).1[j]? = _
    rw [runAux_getElem?, hj]
    simp only [Option.map_some']
    rw [hupd]
    rfl

/-- Witness for C6 (amended): duration "abc" on the second-newest of five
events, none of which have time_taken, yields errors = 1 and
updated = 4. -/
theorem c6_witness :
    1 ≤ (calculate_time_taken_for_collection
      [{ played_at := "0001-01-07 12:10:00", duration := "3:00",
         time_taken := none, other := "z1" },
       { played_at := "0001-01-07 12:05:00", duration := "abc",
         time_taken := none, other := "z2" },
       { played_at := "0001-01-07 12:00:00", duration := "2:30",
         time_taken := none, other := "z3" },
       { played_at := "0001-01-07 11:55:00", duration := "4:00",
         time_taken := none, other := "z4" },
       { played_at := "0001-01-07 11:50:00", duration := "3:20",
         time_taken := none, other := "z5" }]).2.errors
    ∧ (calculate_time_taken_for_collection
      [{ played_at := "0001-01-07 12:10:00", duration := "3:00",
         time_taken := none, other := "z1" },
       { played_at := "0001-01-07 12:05:00", duration := "abc",
         time_taken := none, other := "z2" },
       { played_at := "0001-01-07 12:00:00", duration := "2:30",
         time_taken := none, other := "z3" },
       { played_at := "0001-01-07 11:55:00", duration := "4:00",
         time_taken := none, other := "z4" },
       { played_at := "0001-01-07 11:50:00", duration := "3:20",
         time_taken := none, other := "z5" }]).2.errors = 1
    ∧ (calculate_time_taken_for_collection
      [{ played_at := "0001-01-07 12:10:00", duration := "3:00",
         time_taken := none, other := "z1" },
       { played_at := "0001-01-07 12:05:00", duration := "abc",
         time_taken := none, other := "z2" },
       { played_at := "0001-01-07 12:00:00", duration := "2:30",
         time_taken := none, other := "z3" },
       { played_at := "0001-01-07 11:55:00", duration := "4:00",
         time_taken := none, other := "z4" },
       { played_at := "0001-01-07 11:50:00", duration := "3:20",
         time_taken := none, other := "z5" }]).2.updated = 4 :=
  ⟨(c6_per_event_failure_isolated
      [{ played_at := "0001-01-07 12:10:00", duration := "3:00",
         time_taken := none, other := "z1" },
       { played_at := "0001-01-07 12:05:00", duration := "abc",
         time_taken := none, other := "z2" },
       { played_at := "0001-01-07 12:00:00", duration := "2:30",
         time_taken := none, other := "z3" },
       { played_at := "0001-01-07 11:55:00", duration := "4:00",
         time_taken := none, other := "z4" },
       { played_at := "0001-01-07 11:50:00", duration := "3:20",
         time_taken := none, other := "z5" }]
      1
      { played_at := "0001-01-07 12:05:00", duration := "abc",
        time_taken := none, other := "z2" }
      (by decide) (by decide)).1,
   by decide, by decide⟩

/-- C7: for every non-oldest event the estimator updates, the stored
`time_taken` parsed back to seconds is at most the event's duration
parsed to seconds. -/
theorem c7_cap_invariant (data : List Song) (i : Nat)
    (song next s' : Song) (tt : String)
    (hi : data[i]? = some song) (hnext : data[i + 1]? = some next)
    (htt : song.time_taken = none)
    (hres : (calculate_time_taken_for_collection data).1[i]? = some s')
    (hstt : s'.time_taken = some tt) :
    ∃ t d : Int, parseDuration tt = some t
      ∧ parseDuration song.duration = some d ∧ t ≤ d := by
  have hres' : (runAux data).1[i]? = some s' := hres
  rw [runAux_getElem?, hi] at hres'
  simp only [Option.map_some'] at hres'
  rw [hnext] at hres'
  injection hres' with hs'
  cases h1 : strpSeconds song.played_at with
  | none =>
    have he : processSong song (some next) = .errored := by
      simp [processSong, htt, h1]
    rw [he] at hs'
    have hx : song = s' := hs'
    subst hx
    rw [htt] at hstt
    exact absurd hstt (by simp)
  | some cur =>
    cases h2 : strpSeconds next.played_at with
    | none =>
      have he : processSong song (some next) = .errored := by
        simp [processSong, htt, h1, h2]
      rw [he] at hs'
      have hx : song = s' := hs'
      subst hx
      rw [htt] at hstt
      exact absurd hstt (by simp)
    | some nxt =>
      cases hd : parseDuration song.duration with
      | none =>
        have he : processSong song (some next) = .errored := by
          simp [processSong, htt, h1, h2, hd]
        rw [he] at hs'
        have hx : song = s' := hs'
        subst hx
        rw [htt] at hstt
        exact absurd hstt (by simp)
      | some dur =>
        have he : processSong song (some next) =
            .updated { song with
              time_taken := some (formatTimeTaken (min (cur - nxt) dur)) } := by
          simp [processSong, htt, h1, h2, hd]
        rw [he] at hs'
        have hx : { song with
            time_taken := some (formatTimeTaken (min (cur - nxt) dur)) } = s' := hs'
        subst hx
        have hsome : some (formatTimeTaken (min (cur - nxt) dur)) = some tt := hstt
        injection hsome with hfmt
        refine ⟨min (cur - nxt) dur, dur, ?_, rfl, min_le_right _ _⟩
        rw [← hfmt]
        exact parseDuration_formatTimeTaken _

/-- Witness for C7: the updated event stores "2:30" (150 s) against
duration "2:55" (175 s), and 150 ≤ 175. -/
theorem c7_witness :
    ∃ t d : Int, parseDuration ("2:30") = some t
      ∧ parseDuration ("2:55") = some d ∧ t ≤ d :=
  c7_cap_invariant
    [{ played_at := "0001-01-04 06:10:00", duration := "2:55",
       time_taken := none, other := "w8" },
     { played_at := "0001-01-04 06:07:30", duration := "1:00",
       time_taken := none, other := "w9" }]
    0
    { played_at := "0001-01-04 06:10:00", duration := "2:55",
      time_taken := none, other := "w8" }
    { played_at := "0001-01-04 06:07:30", duration := "1:00",
      time_taken := none, other := "w9" }
    { played_at := "0001-01-04 06:10:00", duration := "2:55",
      time_taken := some ("2:30"), other := "w8" }
    ("2:30")
    (by decide) (by decide) rfl (by decide) rfl

/-- C8: on the failure path with a notification destination configured,
`send_sns` is handed the error string and indexing it like a dict raises
a TypeError before the try-except, replacing the run's original error —
so a notification-step failure does change the run's result, contrary to
the claim.  Without a destination the original error survives, and the
success path is unaffected by publish failures. -/
theorem c8_notification_step_changes_failure_result :
    lambda_handler (.error ("storage offline")) true true =
      .error ("TypeError: string indices must be integers")
    ∧ lambda_handler (.error ("storage offline")) true true ≠
      .error ("Updater failed: storage offline")
    ∧ lambda_handler (.error ("storage offline")) false true =
      .error ("Updater failed: storage offline")
    ∧ lambda_handler
        (.ok { total_docs := 2, updated := 2, skipped := 0, errors := 0 })
        true true =
      .ok (200, { total_docs := 2, updated := 2, skipped := 0, errors := 0 })
    ∧ lambda_handler
        (.ok { total_docs := 2, updated := 2, skipped := 0, errors := 0 })
        true false =
      .ok (200, { total_docs := 2, updated := 2, skipped := 0, errors := 0 }) := by
  refine ⟨rfl, ?_, rfl, rfl, rfl⟩
  intro hcon
  have h1 : (Except.error ("TypeError: string indices must be integers") :
      Except String (Nat × Stats)) = .error ("Updater failed: storage offline") := hcon
  injection h1 with h2
  exact absurd h2 (by decide)

/-- C9: the ingestor renders a raw duration in milliseconds as
minutes-seconds text with `minutes = ms div 60000` and
`seconds = (ms mod 60000) div 1000`; parsing the text back gives exactly
`ms div 1000`, the truncation to whole seconds. -/
theorem c9_duration_ms_truncation (duration_ms : Nat) :
    parseDuration (format_duration_ms duration_ms) =
      some ((duration_ms / 60000 * 60 + duration_ms % 60000 / 1000 : Nat) : Int)
    ∧ duration_ms / 60000 * 60 + duration_ms % 60000 / 1000
      = duration_ms / 1000 :=
  ⟨parseDuration_format_duration_ms duration_ms, by omega⟩

/-- C10: for every input (including the empty one) the returned
statistics satisfy total_docs = length of the input and
updated + skipped + errors = total_docs: each event lands in exactly one
counter. -/
theorem c10_counters_partition (data : List Song) :
    (calculate_time_taken_for_collection data).2.total_docs = data.length
    ∧ (calculate_time_taken_for_collection data).2.updated
      + (calculate_time_taken_for_collection data).2.skipped
      + (calculate_time_taken_for_collection data).2.errors = data.length :=
  ⟨rfl, runAux_counts data⟩
